import Mathlib

/-!
Verification of the core of the muse BLE telemetry library.

Shallow embedding of the Rust source (src/ble.rs, src/device_state.rs):
bytes are modelled as `Nat` (values `< 256` where the source guarantees it),
byte strings as `List Nat`, fallible functions return `Except String`, and
the `f32` promotions in the source (`byte as f32`, `u24 as f32`) are modelled
by the promoted integer value itself, which `f32` represents exactly
(every value below `2 ^ 24` is an exact `f32`), so no scaling or rounding is
lost by staying in `Nat`.
-/

/-- Embeds `parse_eeg_data` (src/ble.rs): payloads shorter than 2 bytes fail,
otherwise the 2-byte header is dropped and the remaining bytes are the
samples. -/
def parse_eeg_data (data : List Nat) : Except String (List Nat) :=
  if data.length < 2 then Except.error "EEG data too short"
  else Except.ok (data.drop 2)

/-- Embeds `decode_unsigned_24_bit_data` (src/ble.rs): the byte list is cut
into groups of 3 (`samples.chunks(3)`), incomplete trailing groups are
skipped, and each full group becomes
`(b0 as u32) << 16 | (b1 as u32) << 8 | (b2 as u32)`.  The source wraps the
result in an always-`Ok` `Result`; the wrapping is done by `parse_ppg_data`
below. -/
def decode_unsigned_24_bit_data : List Nat → List Nat
  | b0 :: b1 :: b2 :: rest =>
      (b0 <<< 16 ||| b1 <<< 8 ||| b2) :: decode_unsigned_24_bit_data rest
  | [] => []
  | [_] => []
  | [_, _] => []

/-- Embeds `parse_ppg_data` (src/ble.rs): payloads shorter than 2 bytes fail,
otherwise the 2-byte header is dropped and the rest is decoded as 24-bit
groups. -/
def parse_ppg_data (data : List Nat) : Except String (List Nat) :=
  if data.length < 2 then Except.error "PPG data too short"
  else Except.ok (decode_unsigned_24_bit_data (data.drop 2))

/-- Embeds the buffer construction of `send_control_command` (src/ble.rs):
`buffer = [b'X'] ++ cmd ++ [b'\n']`, then `buffer[0] = (buffer.len() - 1) as u8`.
Byte 88 is the marker (ASCII X) and byte 10 the trailing newline; the Rust
`as u8` cast is `% 256`. -/
def send_control_command_frame (cmd : List Nat) : List Nat :=
  let buffer := 88 :: (cmd ++ [10])
  buffer.set 0 ((buffer.length - 1) % 256)

/-! Helper lemmas about the 24-bit decoder. -/

theorem shiftLeft_or_eq_of_lt (a b n : Nat) (hb : b < 2 ^ n) :
    a <<< n ||| b = a * 2 ^ n + b := by
  rw [Nat.shiftLeft_eq, Nat.mul_comm, ← Nat.mul_add_lt_is_or hb]

theorem byte_triple_or_eq (b0 b1 b2 : Nat) (h1 : b1 < 256) (h2 : b2 < 256) :
    b0 <<< 16 ||| b1 <<< 8 ||| b2 = b0 * 65536 + b1 * 256 + b2 := by
  have e1 : b0 <<< 16 ||| b1 <<< 8 = b0 * 65536 + b1 * 256 := by
    have hlt : b1 <<< 8 < 2 ^ 16 := by
      rw [Nat.shiftLeft_eq]
      simp only [show (2 : Nat) ^ 8 = 256 from rfl, show (2 : Nat) ^ 16 = 65536 from rfl]
      omega
    rw [shiftLeft_or_eq_of_lt _ _ _ hlt, Nat.shiftLeft_eq]
    norm_num
  rw [e1]
  have hm : b0 * 65536 + b1 * 256 = (b0 * 256 + b1) * 2 ^ 8 := by ring
  have h2' : b2 < 2 ^ 8 := by norm_num [h2]
  calc b0 * 65536 + b1 * 256 ||| b2
      = (b0 * 256 + b1) * 2 ^ 8 ||| b2 := by rw [hm]
    _ = 2 ^ 8 * (b0 * 256 + b1) ||| b2 := by rw [Nat.mul_comm]
    _ = 2 ^ 8 * (b0 * 256 + b1) + b2 := (Nat.mul_add_lt_is_or h2' _).symm
    _ = b0 * 65536 + b1 * 256 + b2 := by ring

theorem decode_unsigned_24_bit_data_length (l : List Nat) :
    (decode_unsigned_24_bit_data l).length = l.length / 3 := by
  induction l using decode_unsigned_24_bit_data.induct with
  | case1 b0 b1 b2 rest ih =>
      simp only [decode_unsigned_24_bit_data, List.length_cons, ih]
      omega
  | case2 => simp [decode_unsigned_24_bit_data]
  | case3 => simp [decode_unsigned_24_bit_data]
  | case4 => simp [decode_unsigned_24_bit_data]

theorem getD_cons_three (a b c : Nat) (l : List Nat) (i : Nat) :
    (a :: b :: c :: l).getD (i + 3) 0 = l.getD i 0 := by
  have e : i + 3 = i + 1 + 1 + 1 := by omega
  rw [e, List.getD_cons_succ, List.getD_cons_succ, List.getD_cons_succ]

theorem decode_unsigned_24_bit_data_eq (l : List Nat) (h : ∀ b ∈ l, b < 256) :
    decode_unsigned_24_bit_data l =
      (List.range (l.length / 3)).map fun j =>
        l.getD (3 * j) 0 * 65536 + l.getD (3 * j + 1) 0 * 256 + l.getD (3 * j + 2) 0 := by
  induction l using decode_unsigned_24_bit_data.induct with
  | case1 b0 b1 b2 rest ih =>
      have hb1 : b1 < 256 := h b1 (by simp)
      have hb2 : b2 < 256 := h b2 (by simp)
      have hrest : ∀ b ∈ rest, b < 256 := fun b hb => h b (by simp [hb])
      have hlen : (b0 :: b1 :: b2 :: rest).length / 3 = rest.length / 3 + 1 := by
        simp only [List.length_cons]
        omega
      rw [decode_unsigned_24_bit_data, ih hrest, hlen, List.range_succ_eq_map]
      simp only [List.map_cons, List.map_map, List.cons.injEq]
      refine ⟨?_, ?_⟩
      · simpa using byte_triple_or_eq b0 b1 b2 hb1 hb2
      · apply List.map_congr_left
        intro j _
        simp only [Function.comp_apply, Nat.succ_eq_add_one]
        have e2 : 3 * (j + 1) + 2 = 3 * j + 2 + 3 := by ring
        have e1 : 3 * (j + 1) + 1 = 3 * j + 1 + 3 := by ring
        have e0 : 3 * (j + 1) = 3 * j + 3 := by ring
        rw [e2, e1, e0, getD_cons_three, getD_cons_three, getD_cons_three]
  | case2 => simp [decode_unsigned_24_bit_data]
  | case3 => simp [decode_unsigned_24_bit_data]
  | case4 => simp [decode_unsigned_24_bit_data]

theorem list_eq_map_range_getD (l : List Nat) :
    (List.range l.length).map (fun i => l.getD i 0) = l := by
  induction l with
  | nil => rfl
  | cons a t ih =>
      rw [List.length_cons, List.range_succ_eq_map, List.map_cons, List.map_map]
      simp only [List.cons.injEq]
      refine ⟨List.getD_cons_zero, ?_⟩
      have hc : List.map ((fun i => (a :: t).getD i 0) ∘ Nat.succ) (List.range t.length)
          = List.map (fun i => t.getD i 0) (List.range t.length) := by
        apply List.map_congr_left
        intro i _
        simp only [Function.comp_apply, Nat.succ_eq_add_one, List.getD_cons_succ]
      rw [hc, ih]

theorem getD_drop_two (l : List Nat) (i : Nat) :
    (l.drop 2).getD i 0 = l.getD (2 + i) 0 := by
  cases l with
  | nil => simp
  | cons a l1 =>
    cases l1 with
    | nil =>
        have e : 2 + i = 1 + i + 1 := by omega
        simp only [List.drop, List.getD_nil, e, List.getD_cons_succ]
    | cons b t =>
        have e : 2 + i = i + 1 + 1 := by omega
        simp only [List.drop, e, List.getD_cons_succ]

theorem parse_eeg_data_ok (data : List Nat) (h : 2 ≤ data.length) :
    parse_eeg_data data = Except.ok (data.drop 2) := by
  rw [parse_eeg_data, if_neg (by omega)]

/-- C2: every EEG notification payload of exactly 14 bytes decodes
successfully into exactly 12 samples, the i-th sample being payload byte
`i + 2` (the `u8 → f32` promotion in the source is exact, so the sample value
is that byte, unscaled); every payload of fewer than 2 bytes fails with the
too-short error and produces no samples. -/
theorem c2_eeg_decode_spec (data short : List Nat)
    (hlen : data.length = 14) (hshort : short.length < 2) :
    parse_eeg_data data = Except.ok ((List.range 12).map fun i => data.getD (i + 2) 0)
    ∧ parse_eeg_data short = Except.error "EEG data too short" := by
  constructor
  · rw [parse_eeg_data_ok data (by omega)]
    have hd : (data.drop 2).length = 12 := by simp [hlen]
    have : (List.range 12).map (fun i => data.getD (i + 2) 0)
        = (List.range (data.drop 2).length).map (fun i => (data.drop 2).getD i 0) := by
      rw [hd]
      apply List.map_congr_left
      intro i _
      rw [getD_drop_two]
      have e : 2 + i = i + 2 := by omega
      rw [e]
    rw [this, list_eq_map_range_getD]
  · rw [parse_eeg_data, if_pos hshort]

theorem c2_eeg_decode_spec_witness :
    (List.replicate 14 7).length = 14 ∧ [9].length < 2 ∧
    (parse_eeg_data (List.replicate 14 7)
        = Except.ok ((List.range 12).map fun i => (List.replicate 14 7).getD (i + 2) 0)
      ∧ parse_eeg_data [9] = Except.error "EEG data too short") :=
  ⟨by decide, by decide, c2_eeg_decode_spec (List.replicate 14 7) [9] (by decide) (by decide)⟩

/-- C3: every PPG notification payload of `2 + 3 * k + r` bytes (`r < 3`)
decodes successfully into exactly `k` samples, the j-th sample being
`b0 * 65536 + b1 * 256 + b2` of the j-th 3-byte group after the 2-byte header
(the `u32 → f32` promotion is exact below `2 ^ 24`, with no sign extension and
no scaling); the `r` leftover bytes are dropped without error; a payload of
fewer than 2 bytes fails with the too-short error. -/
theorem c3_ppg_decode_spec (data short : List Nat) (k r : Nat)
    (hr : r < 3) (hlen : data.length = 2 + 3 * k + r)
    (hbytes : ∀ b ∈ data, b < 256) (hshort : short.length < 2) :
    parse_ppg_data data = Except.ok ((List.range k).map fun j =>
      data.getD (2 + 3 * j) 0 * 65536 + data.getD (3 + 3 * j) 0 * 256 + data.getD (4 + 3 * j) 0)
    ∧ parse_ppg_data short = Except.error "PPG data too short" := by
  constructor
  · rw [parse_ppg_data, if_neg (by omega)]
    rw [decode_unsigned_24_bit_data_eq _ (fun b hb => hbytes b (List.mem_of_mem_drop hb))]
    have hdl : (data.drop 2).length / 3 = k := by
      simp only [List.length_drop, hlen]
      omega
    rw [hdl]
    simp only [Except.ok.injEq]
    apply List.map_congr_left
    intro j _
    rw [getD_drop_two, getD_drop_two, getD_drop_two]
    have e1 : 2 + (3 * j + 1) = 3 + 3 * j := by omega
    have e2 : 2 + (3 * j + 2) = 4 + 3 * j := by omega
    rw [e1, e2]
  · rw [parse_ppg_data, if_pos hshort]

theorem c3_ppg_decode_spec_witness :
    (1 : Nat) < 3 ∧ ([1, 2, 3, 4, 5, 6, 7, 8, 9] : List Nat).length = 2 + 3 * 2 + 1 ∧
    (∀ b ∈ ([1, 2, 3, 4, 5, 6, 7, 8, 9] : List Nat), b < 256) ∧ ([] : List Nat).length < 2 ∧
    (parse_ppg_data [1, 2, 3, 4, 5, 6, 7, 8, 9]
        = Except.ok ((List.range 2).map fun j =>
            ([1, 2, 3, 4, 5, 6, 7, 8, 9] : List Nat).getD (2 + 3 * j) 0 * 65536 +
              ([1, 2, 3, 4, 5, 6, 7, 8, 9] : List Nat).getD (3 + 3 * j) 0 * 256 +
              ([1, 2, 3, 4, 5, 6, 7, 8, 9] : List Nat).getD (4 + 3 * j) 0)
      ∧ parse_ppg_data [] = Except.error "PPG data too short") :=
  ⟨by decide, by decide, by decide, by decide,
    c3_ppg_decode_spec [1, 2, 3, 4, 5, 6, 7, 8, 9] [] 2 1
      (by decide) (by decide) (by decide) (by decide)⟩

/-- C4: for every command byte sequence, the control-command encoding is
`[(total length - 1) % 256] ++ command ++ [10]`: the buffer starts as
`[88] ++ command ++ [10]` (marker byte 88 = ASCII X, newline 10) and byte 0 is
overwritten with the total length minus one, cast to `u8`; in particular
encoding command `[104]` (ASCII h) gives `[2, 104, 10]`. -/
theorem c4_control_encoding_spec (cmd : List Nat) :
    send_control_command_frame cmd = ((cmd.length + 2 - 1) % 256) :: (cmd ++ [10])
    ∧ send_control_command_frame [104] = [2, 104, 10] := by
  constructor
  · rw [send_control_command_frame]
    simp only [List.set_cons_zero, List.cons.injEq]
    refine ⟨?_, trivial⟩
    simp only [List.length_cons, List.length_append, List.length_nil]
  · rfl

/-- C9 evidence: the encoder does not fail loudly on an over-long command.
At the concrete 255-byte command (255 copies of byte 97), total encoded
length is 257, `257 - 1 = 256` wraps to 0 under the `as u8` cast, and the
code silently produces a wire frame whose length byte is 0. -/
theorem c9_overlong_command_wraps_silently :
    send_control_command_frame (List.replicate 255 97)
      = 0 :: (List.replicate 255 97 ++ [10]) := by
  rw [send_control_command_frame]
  simp only [List.set_cons_zero, List.cons.injEq]
  refine ⟨?_, trivial⟩
  simp only [List.length_cons, List.length_append, List.length_nil, List.length_replicate]

/-! Embedding of the session state machine (src/device_state.rs).  The Rust
methods mutate `&mut self`; here each method maps the pre-state to the
post-state, and the fallible `set_streaming_started` returns
`Except String DeviceStateManager` (`Except.error` models the early return,
which leaves the state unchanged). -/

/-- Embeds `DeviceInfo` (src/device_state.rs). -/
structure DeviceInfo where
  name : String
  uuid : String
deriving DecidableEq

/-- Embeds `ConnectionState` (src/device_state.rs). -/
inductive ConnectionState where
  | Disconnected
  | Connected (info : DeviceInfo)
deriving DecidableEq

/-- Embeds `StreamingState` (src/device_state.rs). -/
inductive StreamingState where
  | Stopped
  | Streaming
deriving DecidableEq

/-- Embeds `DeviceStateManager` (src/device_state.rs). -/
structure DeviceStateManager where
  connection_state : ConnectionState
  streaming_state : StreamingState
deriving DecidableEq

namespace DeviceStateManager

/-- Embeds `DeviceStateManager::new`. -/
def new : DeviceStateManager :=
  { connection_state := ConnectionState.Disconnected
    streaming_state := StreamingState.Stopped }

/-- Embeds `set_connected`. -/
def set_connected (s : DeviceStateManager) (name uuid : String) : DeviceStateManager :=
  { s with connection_state := ConnectionState.Connected { name := name, uuid := uuid } }

/-- Embeds `set_streaming_stopped`. -/
def set_streaming_stopped (s : DeviceStateManager) : DeviceStateManager :=
  { s with streaming_state := StreamingState.Stopped }

/-- Embeds `set_disconnected`: it first calls `set_streaming_stopped`, then
sets the connection state, as one transition. -/
def set_disconnected (s : DeviceStateManager) : DeviceStateManager :=
  { s.set_streaming_stopped with connection_state := ConnectionState.Disconnected }

/-- Embeds `is_connected`. -/
def is_connected (s : DeviceStateManager) : Bool :=
  match s.connection_state with
  | ConnectionState.Connected _ => true
  | ConnectionState.Disconnected => false

/-- Embeds `is_streaming`. -/
def is_streaming (s : DeviceStateManager) : Bool :=
  match s.streaming_state with
  | StreamingState.Streaming => true
  | StreamingState.Stopped => false

/-- Embeds `set_streaming_started`: errors (leaving the state unchanged) when
not connected, otherwise sets `streaming_state` to `Streaming`. -/
def set_streaming_started (s : DeviceStateManager) : Except String DeviceStateManager :=
  if s.is_connected then
    Except.ok { s with streaming_state := StreamingState.Streaming }
  else
    Except.error "Cannot start streaming when not connected"

/-- Embeds `can_start_streaming`. -/
def can_start_streaming (s : DeviceStateManager) : Bool :=
  s.is_connected && !s.is_streaming

/-- Embeds `can_stop_streaming`. -/
def can_stop_streaming (s : DeviceStateManager) : Bool :=
  s.is_streaming

end DeviceStateManager

/-- The session invariant of the spec: a streaming session is connected. -/
def streaming_invariant (s : DeviceStateManager) : Prop :=
  s.streaming_state = StreamingState.Streaming → s.is_connected = true

instance (s : DeviceStateManager) : Decidable (streaming_invariant s) := by
  unfold streaming_invariant
  infer_instance

/-- C5: `set_disconnected` from any state (in particular while streaming)
yields connection `Disconnected` and streaming `Stopped` in one transition
(never `Disconnected` with `Streaming`), and the invariant "streaming implies
connected" is preserved by every operation of the state machine: it holds for
the fresh state and after `set_connected`, `set_disconnected`,
`set_streaming_stopped`, and `set_streaming_started` (whose error outcome
leaves the state unchanged). -/
theorem c5_disconnect_forces_stopped (s : DeviceStateManager) (name uuid : String)
    (h : streaming_invariant s) :
    (s.set_disconnected).connection_state = ConnectionState.Disconnected
    ∧ (s.set_disconnected).streaming_state = StreamingState.Stopped
    ∧ streaming_invariant DeviceStateManager.new
    ∧ streaming_invariant (s.set_connected name uuid)
    ∧ streaming_invariant (s.set_disconnected)
    ∧ streaming_invariant (s.set_streaming_stopped)
    ∧ streaming_invariant
        (match s.set_streaming_started with
          | Except.ok t => t
          | Except.error _ => s) := by
  refine ⟨rfl, rfl, ?_, ?_, ?_, ?_, ?_⟩
  · intro h2
    exact StreamingState.noConfusion h2
  · intro _
    rfl
  · intro h2
    exact StreamingState.noConfusion h2
  · intro h2
    exact StreamingState.noConfusion h2
  · rw [DeviceStateManager.set_streaming_started]
    cases hc : s.is_connected with
    | false =>
        rw [if_neg (by simp)]
        exact h
    | true =>
        rw [if_pos rfl]
        intro _
        exact hc

theorem c5_disconnect_forces_stopped_witness :
    streaming_invariant
        { connection_state := ConnectionState.Connected { name := "Muse", uuid := "u1" }
          streaming_state := StreamingState.Streaming }
    ∧ (({ connection_state := ConnectionState.Connected { name := "Muse", uuid := "u1" }
          streaming_state := StreamingState.Streaming } : DeviceStateManager).set_disconnected).connection_state
        = ConnectionState.Disconnected
    ∧ (({ connection_state := ConnectionState.Connected { name := "Muse", uuid := "u1" }
          streaming_state := StreamingState.Streaming } : DeviceStateManager).set_disconnected).streaming_state
        = StreamingState.Stopped :=
  have h := c5_disconnect_forces_stopped
    { connection_state := ConnectionState.Connected { name := "Muse", uuid := "u1" }
      streaming_state := StreamingState.Streaming } "a" "b" (by decide)
  ⟨by decide, h.1, h.2.1⟩

/-- C6 counterexample: on the concrete Connected-and-already-Streaming state,
`set_streaming_started` succeeds (returning the unchanged state) instead of
failing with an invalid-transition error, refuting the claim that it fails in
every state other than Connected-and-Stopped. -/
theorem c6_start_streaming_counterexample :
    DeviceStateManager.set_streaming_started
        { connection_state := ConnectionState.Connected { name := "Muse", uuid := "u1" }
          streaming_state := StreamingState.Streaming }
      = Except.ok
          { connection_state := ConnectionState.Connected { name := "Muse", uuid := "u1" }
            streaming_state := StreamingState.Streaming } := by
  rfl

/-- C6 (amended): `set_streaming_started` succeeds and sets streaming to
`Streaming` exactly when the connection is `Connected`, regardless of the
current streaming state (when already `Streaming` it succeeds and leaves the
state unchanged); on a `Disconnected` session it fails with the
invalid-transition error "Cannot start streaming when not connected" and, the
error being an early return, leaves the session state (including the
streaming field) unchanged. -/
theorem c6_start_streaming_amended (s : DeviceStateManager) :
    s.set_streaming_started =
      if s.is_connected then
        Except.ok { s with streaming_state := StreamingState.Streaming }
      else
        Except.error "Cannot start streaming when not connected" := by
  rfl

/-- C8: `set_streaming_stopped` is total (valid from every state, always
succeeds), always leaves the streaming field `Stopped` without touching the
connection field, and is a no-op on a state whose streaming field is already
`Stopped` (idempotent success). -/
theorem c8_stop_streaming_total (s t : DeviceStateManager)
    (h : t.streaming_state = StreamingState.Stopped) :
    (s.set_streaming_stopped).streaming_state = StreamingState.Stopped
    ∧ (s.set_streaming_stopped).connection_state = s.connection_state
    ∧ t.set_streaming_stopped = t := by
  refine ⟨rfl, rfl, ?_⟩
  obtain ⟨c, st⟩ := t
  cases h
  rfl

theorem c8_stop_streaming_total_witness :
    (DeviceStateManager.new).streaming_state = StreamingState.Stopped
    ∧ ((({ connection_state := ConnectionState.Connected { name := "Muse", uuid := "u1" }
           streaming_state := StreamingState.Streaming } : DeviceStateManager).set_streaming_stopped).streaming_state
          = StreamingState.Stopped
        ∧ (({ connection_state := ConnectionState.Connected { name := "Muse", uuid := "u1" }
              streaming_state := StreamingState.Streaming } : DeviceStateManager).set_streaming_stopped).connection_state
          = ConnectionState.Connected { name := "Muse", uuid := "u1" }
        ∧ (DeviceStateManager.new).set_streaming_stopped = DeviceStateManager.new) :=
  ⟨by decide,
    c8_stop_streaming_total
      { connection_state := ConnectionState.Connected { name := "Muse", uuid := "u1" }
        streaming_state := StreamingState.Streaming }
      DeviceStateManager.new (by decide)⟩

/-! Embedding of the notification pump spawned in `setup_notifications`
(src/ble.rs).  The per-channel chunk slate `ChannelChunks` is modelled with
total functions out of `Fin`; the fixed bijection between characteristic
UUIDs and `(family, channel index)` given by the `eeg_uuids` / `ppg_uuids`
arrays and `iter().position(..)` is modelled by the `CharUuid` inductive
(`control` is the control characteristic, `unknown` any UUID outside both
arrays).  EEG slate entries are the raw bytes (`u8`), PPG slate entries the
decoded 24-bit values; the frames sent over `tx` promote them to `f32`
exactly, so frames carry the same `Nat` values.  The `streaming` gate is an
`RwLock<bool>` read once per notification; each event therefore carries the
gate value that the loop read for it. -/

/-- Embeds `EEG_CHUNK_SIZE` (src/ble.rs). -/
def EEG_CHUNK_SIZE : Nat := 12

/-- Embeds `PPG_CHUNK_SIZE` (src/ble.rs). -/
def PPG_CHUNK_SIZE : Nat := 6

/-- Embeds `ChannelChunks` (src/ble.rs): one chunk-sized buffer per channel
for each family. -/
structure ChannelChunks where
  eeg_chunks : Fin 5 → Fin 12 → Nat
  ppg_chunks : Fin 3 → Fin 6 → Nat

/-- Embeds `ChannelChunks::new`: all-zero slate. -/
def ChannelChunks.new : ChannelChunks :=
  { eeg_chunks := fun _ _ => 0, ppg_chunks := fun _ _ => 0 }

/-- Embeds `ChannelChunks::reset_eeg`. -/
def ChannelChunks.reset_eeg (c : ChannelChunks) : ChannelChunks :=
  { c with eeg_chunks := fun _ _ => 0 }

/-- Embeds `ChannelChunks::reset_ppg`. -/
def ChannelChunks.reset_ppg (c : ChannelChunks) : ChannelChunks :=
  { c with ppg_chunks := fun _ _ => 0 }

/-- Embeds `DataType` (src/ble.rs): one multi-channel sample frame, in
channel order (EEG: TP9, AF7, AF8, TP10, AUX; PPG: AMBIENT, INFRARED, RED). -/
inductive DataType where
  | Eeg (sample : Fin 5 → Nat)
  | Ppg (sample : Fin 3 → Nat)

/-- The characteristic identity of a notification, via the fixed bijection of
the `eeg_uuids` and `ppg_uuids` arrays: `eegChannel i` is `eeg_uuids[i]`
(TP9, AF7, AF8, TP10, AUX), `ppgChannel i` is `ppg_uuids[i]`
(AMBIENT, INFRARED, RED). -/
inductive CharUuid where
  | eegChannel (i : Fin 5)
  | ppgChannel (i : Fin 3)
  | control
  | unknown

/-- Embeds the EEG branch of the notification loop: on a decoded chunk the
slate slot for the channel is overwritten only when the chunk has at least
`EEG_CHUNK_SIZE` samples (`copy_from_slice` of the first 12); if the channel
is the last one (index 4 = AUX) the 12 frames are emitted from the slate and
the EEG slate is reset.  A decode error drops the event. -/
def handle_eeg_notification (chunks : ChannelChunks) (channel_idx : Fin 5)
    (data : List Nat) : ChannelChunks × List DataType :=
  match parse_eeg_data data with
  | Except.error _ => (chunks, [])
  | Except.ok channel_values =>
    let chunks1 :=
      if EEG_CHUNK_SIZE ≤ channel_values.length then
        { chunks with eeg_chunks :=
            Function.update chunks.eeg_chunks channel_idx fun k => channel_values.getD k 0 }
      else chunks
    if channel_idx = (4 : Fin 5) then
      (chunks1.reset_eeg,
        (List.finRange 12).map fun k => DataType.Eeg fun c => chunks1.eeg_chunks c k)
    else (chunks1, [])

/-- Embeds the PPG branch of the notification loop (last channel:
index 2 = RED, chunk length 6). -/
def handle_ppg_notification (chunks : ChannelChunks) (channel_idx : Fin 3)
    (data : List Nat) : ChannelChunks × List DataType :=
  match parse_ppg_data data with
  | Except.error _ => (chunks, [])
  | Except.ok decoded_values =>
    let chunks1 :=
      if PPG_CHUNK_SIZE ≤ decoded_values.length then
        { chunks with ppg_chunks :=
            Function.update chunks.ppg_chunks channel_idx fun k => decoded_values.getD k 0 }
      else chunks
    if channel_idx = (2 : Fin 3) then
      (chunks1.reset_ppg,
        (List.finRange 6).map fun k => DataType.Ppg fun c => chunks1.ppg_chunks c k)
    else (chunks1, [])

/-- Embeds one iteration of the notification loop: the event carries the
streaming-gate value read for it (`*streaming.read().await`); when the gate
is false the event is discarded with no slate write and no frame; otherwise
the event is dispatched on its characteristic UUID (control and unknown
UUIDs are ignored). -/
def pump_step (chunks : ChannelChunks) (event : Bool × CharUuid × List Nat) :
    ChannelChunks × List DataType :=
  if event.1 then
    match event.2.1 with
    | CharUuid.eegChannel i => handle_eeg_notification chunks i event.2.2
    | CharUuid.ppgChannel i => handle_ppg_notification chunks i event.2.2
    | CharUuid.control => (chunks, [])
    | CharUuid.unknown => (chunks, [])
  else (chunks, [])

/-- Embeds the whole notification loop over a finite event sequence,
collecting the frames sent over `tx` in order. -/
def pump_run (chunks : ChannelChunks) :
    List (Bool × CharUuid × List Nat) → ChannelChunks × List DataType
  | [] => (chunks, [])
  | event :: rest =>
    let r := pump_step chunks event
    let r2 := pump_run r.1 rest
    (r2.1, r.2 ++ r2.2)

theorem pump_step_eeg (chunks : ChannelChunks) (i : Fin 5) (d : List Nat) :
    pump_step chunks (true, CharUuid.eegChannel i, d) = handle_eeg_notification chunks i d :=
  rfl

theorem pump_step_ppg (chunks : ChannelChunks) (i : Fin 3) (d : List Nat) :
    pump_step chunks (true, CharUuid.ppgChannel i, d) = handle_ppg_notification chunks i d :=
  rfl

theorem pump_step_gate_false (chunks : ChannelChunks) (u : CharUuid) (d : List Nat) :
    pump_step chunks (false, u, d) = (chunks, []) :=
  rfl

/-- C7: every notification event read while the streaming gate is false is
discarded: over any event sequence whose events were all read under a false
gate, the pump performs no slate write (the slate is returned unchanged) and
emits zero frames, however many valid chunks arrive. -/
theorem c7_gate_false_discards_all (chunks : ChannelChunks)
    (events : List (Bool × CharUuid × List Nat))
    (h : ∀ e ∈ events, e.1 = false) :
    pump_run chunks events = (chunks, []) := by
  induction events with
  | nil => rfl
  | cons e rest ih =>
      obtain ⟨g, u, d⟩ := e
      have hg : g = false := h (g, u, d) (by simp)
      subst hg
      have hrest : ∀ x ∈ rest, x.1 = false := fun x hx => h x (by simp [hx])
      rw [pump_run]
      simp only [pump_step_gate_false, ih hrest, List.nil_append]

theorem c7_gate_false_discards_all_witness :
    (∀ e ∈ [((false : Bool), CharUuid.eegChannel 0, List.replicate 14 7),
            ((false : Bool), CharUuid.ppgChannel 2, List.replicate 20 1),
            ((false : Bool), CharUuid.eegChannel 4, List.replicate 14 9)], e.1 = false)
    ∧ pump_run ChannelChunks.new
        [((false : Bool), CharUuid.eegChannel 0, List.replicate 14 7),
         ((false : Bool), CharUuid.ppgChannel 2, List.replicate 20 1),
         ((false : Bool), CharUuid.eegChannel 4, List.replicate 14 9)]
        = (ChannelChunks.new, []) :=
  ⟨by intro e he; simp at he; rcases he with h | h | h <;> simp [h],
    c7_gate_false_discards_all ChannelChunks.new _
      (by intro e he; simp at he; rcases he with h | h | h <;> simp [h])⟩

theorem parse_ppg_data_ok (data : List Nat) (h : 2 ≤ data.length) :
    parse_ppg_data data = Except.ok (decode_unsigned_24_bit_data (data.drop 2)) := by
  rw [parse_ppg_data, if_neg (by omega)]

theorem handle_eeg_full_nonlast (chunks : ChannelChunks) (i : Fin 5) (data : List Nat)
    (hlen : 14 ≤ data.length) (hi : ¬ i = (4 : Fin 5)) :
    handle_eeg_notification chunks i data =
      ({ chunks with eeg_chunks :=
          Function.update chunks.eeg_chunks i fun k => (data.drop 2).getD k 0 }, []) := by
  have h12 : EEG_CHUNK_SIZE ≤ (data.drop 2).length := by
    simp only [EEG_CHUNK_SIZE, List.length_drop]
    omega
  simp only [handle_eeg_notification, parse_eeg_data_ok data (by omega), if_pos h12, if_neg hi]

theorem handle_eeg_full_last (chunks : ChannelChunks) (data : List Nat)
    (hlen : 14 ≤ data.length) :
    handle_eeg_notification chunks 4 data =
      ({ chunks with eeg_chunks := fun _ _ => 0 },
        (List.finRange 12).map fun k => DataType.Eeg fun c =>
          Function.update chunks.eeg_chunks 4 (fun j => (data.drop 2).getD j 0) c k) := by
  have h12 : EEG_CHUNK_SIZE ≤ (data.drop 2).length := by
    simp only [EEG_CHUNK_SIZE, List.length_drop]
    omega
  simp only [handle_eeg_notification, parse_eeg_data_ok data (by omega), if_pos h12,
    eq_self_iff_true, if_true, ChannelChunks.reset_eeg]

theorem handle_ppg_full_nonlast (chunks : ChannelChunks) (i : Fin 3) (data : List Nat)
    (hlen : 20 ≤ data.length) (hi : ¬ i = (2 : Fin 3)) :
    handle_ppg_notification chunks i data =
      ({ chunks with ppg_chunks :=
          Function.update chunks.ppg_chunks i fun k =>
            (decode_unsigned_24_bit_data (data.drop 2)).getD k 0 }, []) := by
  have h6 : PPG_CHUNK_SIZE ≤ (decode_unsigned_24_bit_data (data.drop 2)).length := by
    simp only [PPG_CHUNK_SIZE, decode_unsigned_24_bit_data_length, List.length_drop]
    omega
  simp only [handle_ppg_notification, parse_ppg_data_ok data (by omega), if_pos h6, if_neg hi]

theorem handle_ppg_full_last (chunks : ChannelChunks) (data : List Nat)
    (hlen : 20 ≤ data.length) :
    handle_ppg_notification chunks 2 data =
      ({ chunks with ppg_chunks := fun _ _ => 0 },
        (List.finRange 6).map fun k => DataType.Ppg fun c =>
          Function.update chunks.ppg_chunks 2
            (fun j => (decode_unsigned_24_bit_data (data.drop 2)).getD j 0) c k) := by
  have h6 : PPG_CHUNK_SIZE ≤ (decode_unsigned_24_bit_data (data.drop 2)).length := by
    simp only [PPG_CHUNK_SIZE, decode_unsigned_24_bit_data_length, List.length_drop]
    omega
  simp only [handle_ppg_notification, parse_ppg_data_ok data (by omega), if_pos h6,
    eq_self_iff_true, if_true, ChannelChunks.reset_ppg]

/-- C10: a successfully decoded notification on a family's last channel
(EEG index 4 = AUX, PPG index 2 = RED) whose decoded chunk is shorter than
the family's chunk length is not copied into the slate (the length guard on
the copy fails independently of the emission trigger), yet a full batch of
`chunkLength` frames is still emitted from the previous slate contents, and
the family's slate is zeroed afterwards. -/
theorem c10_short_last_chunk_still_emits (chunks : ChannelChunks) (p q : List Nat)
    (hp2 : 2 ≤ p.length) (hp14 : p.length < 14)
    (hq2 : 2 ≤ q.length) (hq20 : q.length < 20) :
    pump_step chunks (true, CharUuid.eegChannel 4, p)
      = ({ chunks with eeg_chunks := fun _ _ => 0 },
         (List.finRange 12).map fun k => DataType.Eeg fun c => chunks.eeg_chunks c k)
    ∧ pump_step chunks (true, CharUuid.ppgChannel 2, q)
      = ({ chunks with ppg_chunks := fun _ _ => 0 },
         (List.finRange 6).map fun k => DataType.Ppg fun c => chunks.ppg_chunks c k) := by
  constructor
  · rw [pump_step_eeg]
    have hno : ¬ EEG_CHUNK_SIZE ≤ (p.drop 2).length := by
      simp only [EEG_CHUNK_SIZE, List.length_drop]
      omega
    simp only [handle_eeg_notification, parse_eeg_data_ok p hp2, if_neg hno,
      eq_self_iff_true, if_true, ChannelChunks.reset_eeg]
  · rw [pump_step_ppg]
    have hno : ¬ PPG_CHUNK_SIZE ≤ (decode_unsigned_24_bit_data (q.drop 2)).length := by
      simp only [PPG_CHUNK_SIZE, decode_unsigned_24_bit_data_length, List.length_drop]
      omega
    simp only [handle_ppg_notification, parse_ppg_data_ok q hq2, if_neg hno,
      eq_self_iff_true, if_true, ChannelChunks.reset_ppg]

theorem c10_short_last_chunk_still_emits_witness :
    2 ≤ ([5, 6, 7] : List Nat).length ∧ ([5, 6, 7] : List Nat).length < 14 ∧
    2 ≤ ([8, 9] : List Nat).length ∧ ([8, 9] : List Nat).length < 20 ∧
    (pump_step ChannelChunks.new (true, CharUuid.eegChannel 4, [5, 6, 7])
        = ({ ChannelChunks.new with eeg_chunks := fun _ _ => 0 },
           (List.finRange 12).map fun k => DataType.Eeg fun c => ChannelChunks.new.eeg_chunks c k)
      ∧ pump_step ChannelChunks.new (true, CharUuid.ppgChannel 2, [8, 9])
        = ({ ChannelChunks.new with ppg_chunks := fun _ _ => 0 },
           (List.finRange 6).map fun k => DataType.Ppg fun c => ChannelChunks.new.ppg_chunks c k)) :=
  ⟨by decide, by decide, by decide, by decide,
    c10_short_last_chunk_still_emits ChannelChunks.new [5, 6, 7] [8, 9]
      (by decide) (by decide) (by decide) (by decide)⟩

/-- C1: writing a full chunk for every channel of a family except the last,
then writing the last channel's chunk (EEG channel 4 = AUX, PPG channel
2 = RED), makes the pump emit exactly `chunkLength` frames (12 for EEG, 6 for
PPG), the frame at `sampleIndex` holding each channel's slate value at
`sampleIndex` in channel order, the frames listed in strictly increasing
sample-index order, and leaves every slate slot of that family all-zero
immediately after the batch. -/
theorem c1_full_cycle_emits_batch (chunks : ChannelChunks)
    (p : Fin 5 → List Nat) (q : Fin 3 → List Nat)
    (hp : ∀ i, 14 ≤ (p i).length) (hq : ∀ i, 20 ≤ (q i).length) :
    pump_run chunks
        [(true, CharUuid.eegChannel 0, p 0), (true, CharUuid.eegChannel 1, p 1),
         (true, CharUuid.eegChannel 2, p 2), (true, CharUuid.eegChannel 3, p 3),
         (true, CharUuid.eegChannel 4, p 4)]
      = ({ chunks with eeg_chunks := fun _ _ => 0 },
         (List.finRange 12).map fun (k : Fin 12) =>
           DataType.Eeg fun c => ((p c).drop 2).getD (k : Nat) 0)
    ∧ pump_run chunks
        [(true, CharUuid.ppgChannel 0, q 0), (true, CharUuid.ppgChannel 1, q 1),
         (true, CharUuid.ppgChannel 2, q 2)]
      = ({ chunks with ppg_chunks := fun _ _ => 0 },
         (List.finRange 6).map fun (k : Fin 6) => DataType.Ppg fun c =>
           (decode_unsigned_24_bit_data ((q c).drop 2)).getD (k : Nat) 0) := by
  constructor
  · simp only [pump_run, pump_step_eeg]
    rw [handle_eeg_full_nonlast _ 0 (p 0) (hp 0) (by decide)]
    rw [handle_eeg_full_nonlast _ 1 (p 1) (hp 1) (by decide)]
    rw [handle_eeg_full_nonlast _ 2 (p 2) (hp 2) (by decide)]
    rw [handle_eeg_full_nonlast _ 3 (p 3) (hp 3) (by decide)]
    rw [handle_eeg_full_last _ (p 4) (hp 4)]
    simp only [List.nil_append, List.append_nil, Prod.mk.injEq]
    constructor
    · trivial
    · apply List.map_congr_left
      intro k _
      simp only [DataType.Eeg.injEq]
      funext c
      fin_cases c <;>
        simp [Function.update, Fin.ext_iff, show ((4 : Fin 5) : Nat) = 4 from rfl,
          show ((3 : Fin 5) : Nat) = 3 from rfl, show ((2 : Fin 5) : Nat) = 2 from rfl,
          show ((1 : Fin 5) : Nat) = 1 from rfl]
  · simp only [pump_run, pump_step_ppg]
    rw [handle_ppg_full_nonlast _ 0 (q 0) (hq 0) (by decide)]
    rw [handle_ppg_full_nonlast _ 1 (q 1) (hq 1) (by decide)]
    rw [handle_ppg_full_last _ (q 2) (hq 2)]
    simp only [List.nil_append, List.append_nil, Prod.mk.injEq]
    constructor
    · trivial
    · apply List.map_congr_left
      intro k _
      simp only [DataType.Ppg.injEq]
      funext c
      fin_cases c <;>
        simp [Function.update, Fin.ext_iff, show ((2 : Fin 3) : Nat) = 2 from rfl,
          show ((1 : Fin 3) : Nat) = 1 from rfl]

theorem c1_full_cycle_emits_batch_witness :
    14 ≤ (List.replicate 14 7).length ∧ 20 ≤ (List.replicate 20 1).length ∧
    (pump_run ChannelChunks.new
        [(true, CharUuid.eegChannel 0, List.replicate 14 7),
         (true, CharUuid.eegChannel 1, List.replicate 14 7),
         (true, CharUuid.eegChannel 2, List.replicate 14 7),
         (true, CharUuid.eegChannel 3, List.replicate 14 7),
         (true, CharUuid.eegChannel 4, List.replicate 14 7)]
      = ({ ChannelChunks.new with eeg_chunks := fun _ _ => 0 },
         (List.finRange 12).map fun (k : Fin 12) =>
           DataType.Eeg fun _ => ((List.replicate 14 7).drop 2).getD (k : Nat) 0)
    ∧ pump_run ChannelChunks.new
        [(true, CharUuid.ppgChannel 0, List.replicate 20 1),
         (true, CharUuid.ppgChannel 1, List.replicate 20 1),
         (true, CharUuid.ppgChannel 2, List.replicate 20 1)]
      = ({ ChannelChunks.new with ppg_chunks := fun _ _ => 0 },
         (List.finRange 6).map fun (k : Fin 6) => DataType.Ppg fun _ =>
           (decode_unsigned_24_bit_data ((List.replicate 20 1).drop 2)).getD (k : Nat) 0)) :=
  ⟨by decide, by decide,
    c1_full_cycle_emits_batch ChannelChunks.new
      (fun _ => List.replicate 14 7) (fun _ => List.replicate 20 1)
      (fun _ => by simp) (fun _ => by simp)⟩
